import Mathlib

/-!
Shallow embedding of the SopirPilihan booking & payment lifecycle engine
(backend/routes/booking.js and backend/routes/payment.js).

Money amounts are modelled as exact rationals (the source works with SQL
DECIMAL values surfaced as JS numbers), dates as integer day numbers
(inputs are `YYYY-MM-DD` strings parsed to UTC-midnight `Date`s, so every
difference is a whole number of days).  Each route handler becomes a pure
function from a database value to `Except Err` of the updated database.
-/

namespace SopirPilihan

/-- `status_booking` enum of the `bookings` table. -/
inductive BStatus
  | pending
  | confirmed
  | ongoing
  | completed
  | cancelled
deriving DecidableEq, Repr

/-- `payment_status` enum stored on the booking row (derived field). -/
inductive PayStatus
  | unpaid
  | dpPaid
  | paid
deriving DecidableEq, Repr

/-- `payment_type` enum of the `payments` table (`dp` = deposit,
`pelunasan` = settlement). -/
inductive PType
  | dp
  | full
  | pelunasan
deriving DecidableEq, Repr

/-- `payment_method` enum of the `payments` table. -/
inductive PMethod
  | transfer
  | cash
  | ewallet
deriving DecidableEq, Repr

/-- `status_payment` enum of the `payments` table. -/
inductive VStatus
  | pending
  | verified
  | rejected
deriving DecidableEq, Repr

/-- Authenticated principal roles issued by the auth middleware. -/
inductive Role
  | user
  | driver
  | admin
deriving DecidableEq, Repr

/-- Authenticated principal (`req.user`). -/
structure Actor where
  id : Nat
  role : Role
deriving DecidableEq, Repr

/-- Row of the `drivers` table (fields used by the booking routes). -/
structure Driver where
  id : Nat
  userId : Nat
  hargaPerHari : ℚ
  verified : Bool
  isAvailable : Bool
deriving DecidableEq, Repr

/-- Row of the `bookings` table (fields used by the modelled routes). -/
structure Booking where
  id : Nat
  userId : Nat
  driverId : Nat
  tanggalMulai : Int
  tanggalSelesai : Int
  totalHari : Int
  hargaPerHari : ℚ
  totalHarga : ℚ
  statusBooking : BStatus
  paymentStatus : PayStatus
  catatanKhusus : Option String
deriving DecidableEq, Repr

/-- Row of the `payments` table. -/
structure Payment where
  id : Nat
  bookingId : Nat
  jumlah : ℚ
  paymentType : PType
  paymentMethod : PMethod
  buktiTransfer : Option String
  statusPayment : VStatus
  verifiedBy : Option Nat
deriving DecidableEq, Repr

/-- The backing store. -/
structure Db where
  drivers : List Driver
  bookings : List Booking
  payments : List Payment
deriving DecidableEq, Repr

/-- Error kinds surfaced at the request boundary by the modelled routes. -/
inductive Err
  | DriverUnavailable
  | ScheduleConflict
  | ValidationError
  | BookingNotFound
  | PaymentNotFound
  | Forbidden
  | InvalidTransition
  | NotCancellable
  | InsufficientAmount
  | ProofRequired
  | AlreadyDecided
  | SqlParamMismatch
deriving DecidableEq, Repr

/-! ### Booking creation (`POST /` in booking.js) -/

/-- SQL `x BETWEEN lo AND hi` (closed interval membership). -/
def sqlBetween (x lo hi : Int) : Bool :=
  decide (lo ≤ x) && decide (x ≤ hi)

/-- WHERE-clause of the conflict query in the create-booking route:
`(tanggal_mulai BETWEEN ? AND ?) OR (tanggal_selesai BETWEEN ? AND ?) OR
(? BETWEEN tanggal_mulai AND tanggal_selesai) OR (? BETWEEN tanggal_mulai
AND tanggal_selesai)` with the requested range bound to the parameters. -/
def conflictCond (reqMulai reqSelesai bMulai bSelesai : Int) : Bool :=
  sqlBetween bMulai reqMulai reqSelesai ||
  sqlBetween bSelesai reqMulai reqSelesai ||
  sqlBetween reqMulai bMulai bSelesai ||
  sqlBetween reqSelesai bMulai bSelesai

/-- `status_booking NOT IN ('cancelled', 'completed')` filter of the
conflict query. -/
def nonTerminal (s : BStatus) : Bool :=
  !(s == BStatus.cancelled || s == BStatus.completed)

/-- Milliseconds per day, the divisor `1000 * 3600 * 24` in the route. -/
def msPerDay : Int := 1000 * 3600 * 24

/-- `Math.ceil (a / b)` on integers for `b > 0` (the route divides two
millisecond timestamps; both are exact multiples of `msPerDay` here). -/
def ceilDivInt (a b : Int) : Int := (a + b - 1) / b

/-- Body of a create-booking request (fields relevant to the core). -/
structure CreateReq where
  driverId : Nat
  tanggalMulai : Int
  tanggalSelesai : Int
  catatanKhusus : Option String
deriving DecidableEq, Repr

/-- `totalHari = Math.ceil(timeDiff / (1000*3600*24)) + 1` where
`timeDiff = endDate.getTime() - startDate.getTime()`. -/
def totalHariOf (mulai selesai : Int) : Int :=
  ceilDivInt ((selesai - mulai) * msPerDay) msPerDay + 1

/-- The booking row inserted by the create route (`status_booking =
'pending'`, `payment_status` takes the column default `'unpaid'`). -/
def insertedBooking (userId : Nat) (req : CreateReq) (d : Driver) (newId : Nat) : Booking :=
  { id := newId
    userId := userId
    driverId := req.driverId
    tanggalMulai := req.tanggalMulai
    tanggalSelesai := req.tanggalSelesai
    totalHari := totalHariOf req.tanggalMulai req.tanggalSelesai
    hargaPerHari := d.hargaPerHari
    totalHarga := (totalHariOf req.tanggalMulai req.tanggalSelesai : ℚ) * d.hargaPerHari
    statusBooking := BStatus.pending
    paymentStatus := PayStatus.unpaid
    catatanKhusus := req.catatanKhusus }

/-- `POST /` of booking.js: date validation, driver availability lookup,
conflict query, pricing, insert.  `today` is the midnight-truncated current
date; `newId` is the auto-increment id the insert would receive. -/
def createBooking (db : Db) (userId : Nat) (req : CreateReq) (today : Int) (newId : Nat) :
    Except Err (Db × Booking) :=
  if req.tanggalMulai < today then .error .ValidationError
  else if req.tanggalSelesai < req.tanggalMulai then .error .ValidationError
  else
    match db.drivers.find? (fun d =>
        d.id == req.driverId && d.verified && d.isAvailable) with
    | none => .error .DriverUnavailable
    | some d =>
      if (db.bookings.filter (fun b =>
            b.driverId == req.driverId && nonTerminal b.statusBooking &&
            conflictCond req.tanggalMulai req.tanggalSelesai
              b.tanggalMulai b.tanggalSelesai)).isEmpty then
        .ok ({ db with bookings := db.bookings ++ [insertedBooking userId req d newId] },
          insertedBooking userId req d newId)
      else .error .ScheduleConflict

/-- The spec's closed-interval overlap test: `[s1,e1]` and `[s2,e2]`
overlap iff `s1 <= e2 AND s2 <= e1`. -/
def specOverlap (s1 e1 s2 e2 : Int) : Prop :=
  s1 ≤ e2 ∧ s2 ≤ e1

/-! ### Status transitions (`PATCH /:id/status` in booking.js) -/

/-- The `validTransitions` table of the status route, verbatim. -/
def validTransitions : BStatus → List BStatus
  | .pending => [.confirmed, .cancelled]
  | .confirmed => [.ongoing, .cancelled]
  | .ongoing => [.completed, .cancelled]
  | .completed => []
  | .cancelled => []

/-- `PATCH /:id/status`: `isDriverOrAdmin` middleware, booking lookup
joined with `drivers` for `driver_user_id`, driver-ownership check,
transition-table check, then the status `UPDATE`.  (The route attaches an
`isIn` validator for `status` but never reads `validationResult`, so the
requested status reaches the transition table unfiltered.) -/
def updateStatus (db : Db) (actor : Actor) (bookingId : Nat) (status : BStatus)
    (reason : Option String) : Except Err (Db × BStatus) :=
  if actor.role = Role.user then .error .Forbidden
  else
    match db.bookings.find? (fun b => b.id == bookingId) with
    | none => .error .BookingNotFound
    | some booking =>
      match (db.drivers.find? (fun d => d.id == booking.driverId)).map Driver.userId with
      | none => .error .BookingNotFound
      | some driverUserId =>
        if actor.role = Role.driver ∧ driverUserId ≠ actor.id then .error .Forbidden
        else if status ∉ validTransitions booking.statusBooking then .error .InvalidTransition
        else
          .ok ({ db with bookings := db.bookings.map (fun b =>
            if b.id == bookingId then { b with statusBooking := status } else b) },
            status)

/-! ### Requester cancellation (`POST /:id/cancel` in booking.js) -/

/-- The parameter array the cancel route passes to its `UPDATE`:
`[reason, id]`. -/
def cancelUpdateParams (reason : String) (bookingId : Nat) : List String :=
  [reason, toString bookingId]

/-- Number of `?` placeholders in the cancel route's `UPDATE` statement:
one for `status_booking`, one inside the `CONCAT`, one in the `WHERE`. -/
def cancelUpdatePlaceholderCount : Nat := 3

/-- `POST /:id/cancel`: booking lookup by id and owner, cancellable-status
check, then the `UPDATE`.  The statement has three placeholders but the
route binds only two parameters, so the statement itself fails. -/
def cancelBooking (db : Db) (userId bookingId : Nat) (reason : String) :
    Except Err Db :=
  match db.bookings.find? (fun b => b.id == bookingId && b.userId == userId) with
  | none => .error .BookingNotFound
  | some booking =>
    if booking.statusBooking ∉ [BStatus.pending, BStatus.confirmed] then
      .error .NotCancellable
    else if (cancelUpdateParams reason bookingId).length ≠ cancelUpdatePlaceholderCount then
      .error .SqlParamMismatch
    else
      -- unreachable: the parameter count never matches the placeholder count
      .ok db

/-! ### Payment submission (`POST /` in payment.js) -/

/-- Body of a submit-payment request. -/
structure PayReq where
  bookingId : Nat
  jumlah : ℚ
  paymentType : PType
  paymentMethod : PMethod
  buktiTransfer : Option String
deriving DecidableEq, Repr

/-- `SELECT SUM(jumlah) FROM payments WHERE booking_id = ? AND
status_payment = 'verified'`. -/
def verifiedSum (db : Db) (bookingId : Nat) : ℚ :=
  ((db.payments.filter (fun p =>
      p.bookingId == bookingId && p.statusPayment == VStatus.verified)).map
    Payment.jumlah).sum

/-- The payment row inserted by the submit route: `status_payment` is
`'verified'` when the method is cash, `'pending'` otherwise. -/
def insertedPayment (req : PayReq) (newPid : Nat) : Payment :=
  { id := newPid
    bookingId := req.bookingId
    jumlah := req.jumlah
    paymentType := req.paymentType
    paymentMethod := req.paymentMethod
    buktiTransfer := req.buktiTransfer
    statusPayment := if req.paymentMethod = PMethod.cash then VStatus.verified else VStatus.pending
    verifiedBy := none }

/-- Database after the submit route's writes: the payment insert, and —
only when the type is `dp` or `pelunasan` AND the method is cash — the
booking `payment_status` update (`dp_paid` for `dp`, `paid` for
`pelunasan`; a cash `full` payment updates nothing). -/
def submitUpdatedDb (db : Db) (req : PayReq) (newPid : Nat) : Db :=
  let db1 : Db := { db with payments := db.payments ++ [insertedPayment req newPid] }
  if (req.paymentType = PType.dp ∨ req.paymentType = PType.pelunasan) ∧
      req.paymentMethod = PMethod.cash then
    { db1 with bookings := db1.bookings.map (fun b =>
        if b.id == req.bookingId then
          { b with paymentStatus :=
              if req.paymentType = PType.dp then PayStatus.dpPaid else PayStatus.paid }
        else b) }
  else db1

/-- `POST /` of payment.js: booking lookup by id and owner, minimum-amount
checks (`dp` ≥ 30% of total; `full`/`pelunasan` ≥ remaining balance),
proof-of-transfer check (transfer method only), insert, and conditional
booking `payment_status` update. -/
def submitPayment (db : Db) (userId : Nat) (req : PayReq) (newPid : Nat) :
    Except Err (Db × Payment) :=
  match db.bookings.find? (fun b => b.id == req.bookingId && b.userId == userId) with
  | none => .error .BookingNotFound
  | some booking =>
    if req.paymentType = PType.dp ∧ req.jumlah < booking.totalHarga * (3 / 10) then
      .error .InsufficientAmount
    else if (req.paymentType = PType.full ∨ req.paymentType = PType.pelunasan) ∧
        req.jumlah < booking.totalHarga - verifiedSum db req.bookingId then
      .error .InsufficientAmount
    else if req.paymentMethod = PMethod.transfer ∧ req.buktiTransfer = none then
      .error .ProofRequired
    else
      .ok (submitUpdatedDb db req newPid, insertedPayment req newPid)

/-! ### Payment verification (`PATCH /:paymentId/verify` in payment.js) -/

/-- Admin decision body field (`status` ∈ {verified, rejected}). -/
inductive Decision
  | verified
  | rejected
deriving DecidableEq, Repr

/-- Payment status written for a decision. -/
def decidedStatus : Decision → VStatus
  | .verified => VStatus.verified
  | .rejected => VStatus.rejected

/-- `SELECT SUM(jumlah) FROM payments WHERE booking_id = ? AND
status_payment = 'verified' AND id != ?`. -/
def verifiedSumExcl (db : Db) (bookingId pid : Nat) : ℚ :=
  ((db.payments.filter (fun p =>
      p.bookingId == bookingId && p.statusPayment == VStatus.verified &&
      !(p.id == pid))).map Payment.jumlah).sum

/-- Booking `payment_status` recomputed by the verify route on a
`verified` decision: `dp_paid` when the type is `dp`; otherwise `paid`
iff the other verified payments plus this one reach the total. -/
def recomputedStatus (db : Db) (pid : Nat) (payment : Payment) (booking : Booking) :
    PayStatus :=
  if payment.paymentType = PType.dp then PayStatus.dpPaid
  else
    if booking.totalHarga ≤ verifiedSumExcl db payment.bookingId pid + payment.jumlah then
      PayStatus.paid
    else PayStatus.dpPaid

/-- `PATCH /:paymentId/verify`: payment lookup joined with its booking,
pending guard (`AlreadyDecided`), payment-status write, and — on
`verified` only — the booking `payment_status` recompute. -/
def verifyPayment (db : Db) (adminId paymentId : Nat) (decision : Decision)
    (notes : Option String) : Except Err Db :=
  match db.payments.find? (fun p => p.id == paymentId) with
  | none => .error .PaymentNotFound
  | some payment =>
    match db.bookings.find? (fun b => b.id == payment.bookingId) with
    | none => .error .PaymentNotFound
    | some booking =>
      if payment.statusPayment ≠ VStatus.pending then .error .AlreadyDecided
      else
        let db1 : Db := { db with payments := db.payments.map (fun p =>
          if p.id == paymentId then
            { p with statusPayment := decidedStatus decision, verifiedBy := some adminId }
          else p) }
        match decision with
        | .rejected => db1 |> .ok
        | .verified =>
          .ok { db1 with bookings := db1.bookings.map (fun b =>
            if b.id == payment.bookingId then
              { b with paymentStatus := recomputedStatus db paymentId payment booking }
            else b) }

/-! ### Observation helpers -/

/-- Booking `payment_status` visible after a verify call, looked up by
booking id (`none` when the call failed). -/
def paymentStatusAfterVerify (r : Except Err Db) (bookingId : Nat) : Option PayStatus :=
  match r with
  | .error _ => none
  | .ok db => (db.bookings.find? (fun b => b.id == bookingId)).map Booking.paymentStatus

/-- Booking `payment_status` visible after a submit call. -/
def paymentStatusAfterSubmit (r : Except Err (Db × Payment)) (bookingId : Nat) :
    Option PayStatus :=
  match r with
  | .error _ => none
  | .ok (db, _) => (db.bookings.find? (fun b => b.id == bookingId)).map Booking.paymentStatus

/-- Status of the payment row a submit call inserted. -/
def insertedStatusAfterSubmit (r : Except Err (Db × Payment)) : Option VStatus :=
  match r with
  | .error _ => none
  | .ok (_, p) => some p.statusPayment

/-- Whether a call succeeded. -/
def isOkB {α : Type} (r : Except Err α) : Bool :=
  match r with
  | .ok _ => true
  | .error _ => false

/-! ### Concrete fixtures for witnesses and counterexamples -/

/-- A verified, available driver charging 500,000 per day. -/
def exDriver : Driver :=
  { id := 1, userId := 50, hargaPerHari := 500000, verified := true, isAvailable := true }

/-- A pending booking of driver 1 by user 7 over days 10–12. -/
def exBooking : Booking :=
  { id := 1, userId := 7, driverId := 1, tanggalMulai := 10, tanggalSelesai := 12
    totalHari := 3, hargaPerHari := 500000, totalHarga := 1500000
    statusBooking := BStatus.pending, paymentStatus := PayStatus.unpaid
    catatanKhusus := none }

/-- Store with one driver and one pending booking. -/
def exDb : Db := { drivers := [exDriver], bookings := [exBooking], payments := [] }

/-- A two-day confirmed booking with total price 1,000,000. -/
def payBooking : Booking :=
  { exBooking with tanggalSelesai := 11, totalHari := 2, totalHarga := 1000000
                   statusBooking := BStatus.confirmed }

/-- Store for payment-submission scenarios: no payments yet. -/
def payDb : Db := { drivers := [exDriver], bookings := [payBooking], payments := [] }

/-- A pending deposit payment covering the whole 1,000,000 price. -/
def fullDpPayment : Payment :=
  { id := 1, bookingId := 1, jumlah := 1000000, paymentType := PType.dp
    paymentMethod := PMethod.transfer, buktiTransfer := some "bukti1.png"
    statusPayment := VStatus.pending, verifiedBy := none }

/-- Store where the whole price sits in one pending deposit. -/
def payDbFullDp : Db := { payDb with payments := [fullDpPayment] }

/-- An already verified 300,000 deposit. -/
def verifiedDp : Payment :=
  { id := 1, bookingId := 1, jumlah := 300000, paymentType := PType.dp
    paymentMethod := PMethod.transfer, buktiTransfer := some "bukti1.png"
    statusPayment := VStatus.verified, verifiedBy := some 9 }

/-- A pending 700,000 settlement following the verified deposit. -/
def pendingSettlement : Payment :=
  { id := 2, bookingId := 1, jumlah := 700000, paymentType := PType.pelunasan
    paymentMethod := PMethod.transfer, buktiTransfer := some "bukti2.png"
    statusPayment := VStatus.pending, verifiedBy := none }

/-- Store after the deposit was verified: booking shows `dp_paid`. -/
def payDbSettle : Db :=
  { payDb with
      bookings := [{ payBooking with paymentStatus := PayStatus.dpPaid }]
      payments := [verifiedDp, pendingSettlement] }

/-- Store with one already verified payment (for re-verification). -/
def payDbDecided : Db := { payDb with payments := [verifiedDp] }

/-- Store whose only booking is already cancelled. -/
def cancelledDb : Db :=
  { payDb with bookings := [{ payBooking with statusBooking := BStatus.cancelled }] }

/-! ### Helper lemmas -/

/-- Ceiling division of an exact multiple recovers the factor. -/
theorem ceilDivInt_mul (k b : Int) (hb : 0 < b) : ceilDivInt (k * b) b = k := by
  unfold ceilDivInt
  have h1 : k * b + b - 1 = (b - 1) + k * b := by ring
  have hb0 : b ≠ 0 := by omega
  rw [h1, Int.add_mul_ediv_right _ _ hb0]
  have h2 : (b - 1) / b = 0 := Int.ediv_eq_zero_of_lt (by omega) (by omega)
  omega

/-- The route's millisecond arithmetic collapses to inclusive day
counting. -/
theorem totalHariOf_eq (s e : Int) : totalHariOf s e = e - s + 1 := by
  unfold totalHariOf
  rw [ceilDivInt_mul _ _ (by decide : (0:Int) < msPerDay)]

/-- The four-way `BETWEEN` disjunction of the conflict query agrees with
the spec's closed-interval overlap test on well-formed intervals. -/
theorem conflictCond_iff_specOverlap (s e t1 t2 : Int) (ht : t1 ≤ t2) (hse : s ≤ e) :
    conflictCond s e t1 t2 = true ↔ specOverlap t1 t2 s e := by
  simp only [conflictCond, sqlBetween, specOverlap, Bool.or_eq_true, Bool.and_eq_true,
    decide_eq_true_eq]
  omega

/-- `NOT IN ('cancelled','completed')` means membership in the three
non-terminal statuses. -/
theorem nonTerminal_iff (s : BStatus) :
    nonTerminal s = true ↔ s ∈ [BStatus.pending, BStatus.confirmed, BStatus.ongoing] := by
  cases s <;> decide

/-- A per-row conditional update commutes with `find?` when the update
preserves the selection predicate. -/
theorem find?_rowUpdate {α : Type} (p : α → Bool) (f : α → α)
    (hf : ∀ a, p (f a) = p a) (l : List α) :
    (l.map (fun a => if p a then f a else a)).find? p = (l.find? p).map f := by
  induction l with
  | nil => rfl
  | cons x xs ih =>
    by_cases hx : p x = true
    · simp [hx, hf x]
    · have hx' : p x = false := by revert hx; cases p x <;> simp
      simp [hx', ih]

/-! ### C1 -/

/-- C1: a create-booking request for a driver over `[s2,e2]` fails with
`ScheduleConflict` exactly when some existing booking of that driver whose
status is in {pending, confirmed, ongoing} has a range `[s1,e1]` with
`s1 ≤ e2` and `s2 ≤ e1`; with no such non-terminal overlapping booking the
create succeeds (given in-range dates and an available driver). -/
theorem c1_no_double_booking
    (db : Db) (userId : Nat) (req : CreateReq) (today : Int) (newId : Nat)
    (hwf : ∀ b ∈ db.bookings, b.tanggalMulai ≤ b.tanggalSelesai)
    (hs : today ≤ req.tanggalMulai) (he : req.tanggalMulai ≤ req.tanggalSelesai)
    (hd : ∃ d ∈ db.drivers, (d.id == req.driverId && d.verified && d.isAvailable) = true) :
    ((∃ b ∈ db.bookings, b.driverId = req.driverId ∧
        b.statusBooking ∈ [BStatus.pending, BStatus.confirmed, BStatus.ongoing] ∧
        specOverlap b.tanggalMulai b.tanggalSelesai req.tanggalMulai req.tanggalSelesai) →
      createBooking db userId req today newId = .error .ScheduleConflict) ∧
    ((∀ b ∈ db.bookings, b.driverId = req.driverId →
        b.statusBooking ∈ [BStatus.pending, BStatus.confirmed, BStatus.ongoing] →
        ¬ specOverlap b.tanggalMulai b.tanggalSelesai req.tanggalMulai req.tanggalSelesai) →
      ∃ db' bk, createBooking db userId req today newId = .ok (db', bk)) := by
  have hfind : (db.drivers.find? (fun d =>
      d.id == req.driverId && d.verified && d.isAvailable)).isSome := by
    rw [List.find?_isSome]
    obtain ⟨d, hdm, hdp⟩ := hd
    exact ⟨d, hdm, hdp⟩
  obtain ⟨d0, hd0⟩ := Option.isSome_iff_exists.mp hfind
  have hstep : ∀ b ∈ db.bookings,
      ((b.driverId == req.driverId && nonTerminal b.statusBooking &&
        conflictCond req.tanggalMulai req.tanggalSelesai
          b.tanggalMulai b.tanggalSelesai) = true) ↔
      (b.driverId = req.driverId ∧
        b.statusBooking ∈ [BStatus.pending, BStatus.confirmed, BStatus.ongoing] ∧
        specOverlap b.tanggalMulai b.tanggalSelesai req.tanggalMulai req.tanggalSelesai) := by
    intro b hb
    rw [Bool.and_eq_true, Bool.and_eq_true, beq_iff_eq, nonTerminal_iff,
      conflictCond_iff_specOverlap _ _ _ _ (hwf b hb) he]
    tauto
  constructor
  · intro hconf
    obtain ⟨b, hbm, hbq⟩ := hconf
    have hne : ¬ (db.bookings.filter (fun b =>
        b.driverId == req.driverId && nonTerminal b.statusBooking &&
        conflictCond req.tanggalMulai req.tanggalSelesai
          b.tanggalMulai b.tanggalSelesai)).isEmpty = true := by
      rw [List.isEmpty_iff, List.filter_eq_nil_iff]
      intro hall
      exact hall b hbm ((hstep b hbm).mpr hbq)
    simp only [createBooking, if_neg (not_lt.mpr hs), if_neg (not_lt.mpr he), hd0]
    simp only [if_neg hne]
  · intro hnone
    have hemp : (db.bookings.filter (fun b =>
        b.driverId == req.driverId && nonTerminal b.statusBooking &&
        conflictCond req.tanggalMulai req.tanggalSelesai
          b.tanggalMulai b.tanggalSelesai)).isEmpty = true := by
      rw [List.isEmpty_iff, List.filter_eq_nil_iff]
      intro b hbm hbp
      obtain ⟨h1, h2, h3⟩ := (hstep b hbm).mp hbp
      exact hnone b hbm h1 h2 h3
    refine ⟨{ db with bookings := db.bookings ++ [insertedBooking userId req d0 newId] },
      insertedBooking userId req d0 newId, ?_⟩
    simp only [createBooking, if_neg (not_lt.mpr hs), if_neg (not_lt.mpr he), hd0]
    simp only [if_pos hemp]

/-- Witness for C1: on the fixture store, a request abutting the existing
booking at day 12 conflicts (inclusive boundary). -/
theorem c1_witness :
    createBooking exDb 7 ⟨1, 12, 15, none⟩ 0 2 = .error .ScheduleConflict :=
  (c1_no_double_booking exDb 7 ⟨1, 12, 15, none⟩ 0 2
    (by decide) (by decide) (by decide) ⟨exDriver, by decide, by decide⟩).1
    ⟨exBooking, by decide, by decide, by decide, by constructor <;> decide⟩

/-! ### C7 -/

/-- C7: every successfully created booking prices at
`totalPrice = dayCount * ratePerDay` with
`dayCount = (endDate − startDate in days) + 1` (so same-day trips count
one day), the rate being the matched driver's per-day price snapshotted
onto the booking. -/
theorem c7_pricing_determinism
    (db : Db) (userId : Nat) (req : CreateReq) (today : Int) (newId : Nat)
    (db' : Db) (bk : Booking)
    (h : createBooking db userId req today newId = .ok (db', bk)) :
    bk.totalHarga = (bk.totalHari : ℚ) * bk.hargaPerHari ∧
    bk.totalHari = req.tanggalSelesai - req.tanggalMulai + 1 ∧
    (req.tanggalSelesai = req.tanggalMulai → bk.totalHari = 1) ∧
    ∃ d ∈ db.drivers, d.id = req.driverId ∧ d.verified = true ∧
      d.isAvailable = true ∧ bk.hargaPerHari = d.hargaPerHari := by
  revert h
  unfold createBooking
  by_cases h1 : req.tanggalMulai < today
  · rw [if_pos h1]; intro h; exact absurd h (by simp)
  rw [if_neg h1]
  by_cases h2 : req.tanggalSelesai < req.tanggalMulai
  · rw [if_pos h2]; intro h; exact absurd h (by simp)
  rw [if_neg h2]
  cases hfd : db.drivers.find? (fun d =>
      d.id == req.driverId && d.verified && d.isAvailable) with
  | none => intro h; exact absurd h (by simp)
  | some d =>
    dsimp only
    by_cases hc : (db.bookings.filter (fun b =>
        b.driverId == req.driverId && nonTerminal b.statusBooking &&
        conflictCond req.tanggalMulai req.tanggalSelesai
          b.tanggalMulai b.tanggalSelesai)).isEmpty = true
    · rw [if_pos hc]
      intro h
      have hp : ({ db with bookings := db.bookings ++ [insertedBooking userId req d newId] },
          insertedBooking userId req d newId) = (db', bk) := by
        injection h
      have hbk : bk = insertedBooking userId req d newId :=
        (congrArg Prod.snd hp).symm
      have hpred := List.find?_some hfd
      have hmem := List.mem_of_find?_eq_some hfd
      simp only [Bool.and_eq_true, beq_iff_eq] at hpred
      subst hbk
      refine ⟨rfl, ?_, ?_, d, hmem, hpred.1.1, hpred.1.2, hpred.2, rfl⟩
      · exact totalHariOf_eq _ _
      · intro hsame
        show totalHariOf req.tanggalMulai req.tanggalSelesai = 1
        rw [totalHariOf_eq, hsame]
        ring
    · rw [if_neg hc]; intro h; exact absurd h (by simp)

/-- Witness for C7: the fixture create over days 13–15 yields 3 days at
500,000 per day for a total of 1,500,000. -/
theorem c7_witness :
    (insertedBooking 7 ⟨1, 13, 15, none⟩ exDriver 2).totalHarga =
      ((insertedBooking 7 ⟨1, 13, 15, none⟩ exDriver 2).totalHari : ℚ) *
        (insertedBooking 7 ⟨1, 13, 15, none⟩ exDriver 2).hargaPerHari ∧
    (insertedBooking 7 ⟨1, 13, 15, none⟩ exDriver 2).totalHari = 3 := by
  have h := c7_pricing_determinism exDb 7 ⟨1, 13, 15, none⟩ 0 2
    ({ exDb with bookings := exDb.bookings ++ [insertedBooking 7 ⟨1, 13, 15, none⟩ exDriver 2] })
    (insertedBooking 7 ⟨1, 13, 15, none⟩ exDriver 2) (by rfl)
  exact ⟨h.1, h.2.1⟩

/-! ### C2 -/

/-- C2: for an authorized actor, every (current, requested) pair outside
the transition table fails with `InvalidTransition` and no row changes;
every pair in the table is accepted and sets the booking's status to the
requested value. -/
theorem c2_transition_legality
    (db : Db) (actor : Actor) (bookingId : Nat) (status : BStatus) (reason : Option String)
    (bk : Booking) (duid : Nat)
    (hb : db.bookings.find? (fun b => b.id == bookingId) = some bk)
    (hd : (db.drivers.find? (fun d => d.id == bk.driverId)).map Driver.userId = some duid)
    (hrole : actor.role ≠ Role.user)
    (hauth : actor.role = Role.driver → duid = actor.id) :
    (status ∉ validTransitions bk.statusBooking →
      updateStatus db actor bookingId status reason = .error .InvalidTransition) ∧
    (status ∈ validTransitions bk.statusBooking →
      updateStatus db actor bookingId status reason =
        .ok ({ db with bookings := db.bookings.map (fun b =>
          if b.id == bookingId then { b with statusBooking := status } else b) },
          status)) := by
  have hnd : ¬ (actor.role = Role.driver ∧ duid ≠ actor.id) := by
    rintro ⟨ha, hne⟩
    exact hne (hauth ha)
  constructor
  · intro hmem
    simp only [updateStatus, if_neg hrole, hb, hd]
    rw [if_neg hnd, if_pos hmem]
  · intro hmem
    simp only [updateStatus, if_neg hrole, hb, hd]
    rw [if_neg hnd, if_neg (not_not_intro hmem)]

/-- Witness for C2: on the fixture store (status `pending`), requesting
`completed` is rejected with `InvalidTransition` while requesting
`confirmed` succeeds and writes the new status. -/
theorem c2_witness :
    updateStatus exDb ⟨99, Role.admin⟩ 1 BStatus.completed none =
      .error .InvalidTransition ∧
    updateStatus exDb ⟨99, Role.admin⟩ 1 BStatus.confirmed none =
      .ok ({ exDb with bookings := exDb.bookings.map (fun b =>
        if b.id == 1 then { b with statusBooking := BStatus.confirmed } else b) },
        BStatus.confirmed) :=
  ⟨(c2_transition_legality exDb ⟨99, Role.admin⟩ 1 BStatus.completed none exBooking 50
      (by decide) (by decide) (by decide) (by decide)).1 (by decide),
   (c2_transition_legality exDb ⟨99, Role.admin⟩ 1 BStatus.confirmed none exBooking 50
      (by decide) (by decide) (by decide) (by decide)).2 (by decide)⟩

/-! ### C3 -/

/-- C3 counterexample: a pending deposit covering the whole 1,000,000
price is verified; the verified sum including it reaches the total, so the
claim prescribes `paid`, yet the route sets `dp_paid` (the kind check
precedes the sum check). -/
theorem c3_counterexample :
    payBooking.totalHarga ≤ verifiedSumExcl payDbFullDp 1 1 + fullDpPayment.jumlah ∧
    paymentStatusAfterVerify (verifyPayment payDbFullDp 9 1 Decision.verified none) 1 =
      some PayStatus.dpPaid ∧
    PayStatus.dpPaid ≠ PayStatus.paid := by
  refine ⟨?_, by decide, by decide⟩
  show (1000000 : ℚ) ≤ 0 + 1000000
  norm_num

/-- C3 (amended): on decision `verified` the booking's derived payment
status becomes `dp_paid` whenever the payment's kind is a deposit,
regardless of the verified sum; for other kinds it becomes `paid` iff the
verified payments including this one reach the total price, else
`dp_paid`; decision `rejected` leaves every booking row untouched. -/
theorem c3_verify_recompute
    (db : Db) (adminId pid : Nat) (notes : Option String) (p : Payment) (bk : Booking)
    (hp : db.payments.find? (fun q => q.id == pid) = some p)
    (hb : db.bookings.find? (fun b => b.id == p.bookingId) = some bk)
    (hpend : p.statusPayment = VStatus.pending) :
    (∃ db1, verifyPayment db adminId pid Decision.rejected notes = .ok db1 ∧
      db1.bookings = db.bookings) ∧
    (p.paymentType = PType.dp →
      paymentStatusAfterVerify (verifyPayment db adminId pid Decision.verified notes)
        p.bookingId = some PayStatus.dpPaid) ∧
    (p.paymentType ≠ PType.dp →
      bk.totalHarga ≤ verifiedSumExcl db p.bookingId pid + p.jumlah →
      paymentStatusAfterVerify (verifyPayment db adminId pid Decision.verified notes)
        p.bookingId = some PayStatus.paid) ∧
    (p.paymentType ≠ PType.dp →
      ¬ bk.totalHarga ≤ verifiedSumExcl db p.bookingId pid + p.jumlah →
      paymentStatusAfterVerify (verifyPayment db adminId pid Decision.verified notes)
        p.bookingId = some PayStatus.dpPaid) := by
  have hok : verifyPayment db adminId pid Decision.verified notes =
      .ok { db with
        payments := db.payments.map (fun q =>
          if q.id == pid then
            { q with statusPayment := decidedStatus Decision.verified,
                     verifiedBy := some adminId }
          else q)
        bookings := db.bookings.map (fun b =>
          if b.id == p.bookingId then
            { b with paymentStatus := recomputedStatus db pid p bk }
          else b) } := by
    simp only [verifyPayment, hp, hb]
    rw [if_neg (not_not_intro hpend)]
  have hfind : ∀ st : PayStatus,
      ((db.bookings.map (fun b =>
          if b.id == p.bookingId then { b with paymentStatus := st } else b)).find?
        (fun b => b.id == p.bookingId)).map Booking.paymentStatus = some st := by
    intro st
    rw [find?_rowUpdate (fun b => b.id == p.bookingId)
      (fun b => { b with paymentStatus := st }) (fun a => rfl) db.bookings, hb]
    rfl
  refine ⟨?_, ?_, ?_, ?_⟩
  · refine ⟨{ db with payments := db.payments.map (fun q =>
        if q.id == pid then
          { q with statusPayment := decidedStatus Decision.rejected,
                   verifiedBy := some adminId }
        else q) }, ?_, rfl⟩
    simp only [verifyPayment, hp, hb]
    rw [if_neg (not_not_intro hpend)]
  · intro hdp
    rw [hok]
    show ((db.bookings.map _).find? _).map Booking.paymentStatus = _
    rw [show recomputedStatus db pid p bk = PayStatus.dpPaid by
      simp [recomputedStatus, hdp]]
    exact hfind PayStatus.dpPaid
  · intro hnd hge
    rw [hok]
    show ((db.bookings.map _).find? _).map Booking.paymentStatus = _
    rw [show recomputedStatus db pid p bk = PayStatus.paid by
      simp [recomputedStatus, hnd, hge]]
    exact hfind PayStatus.paid
  · intro hnd hlt
    rw [hok]
    show ((db.bookings.map _).find? _).map Booking.paymentStatus = _
    rw [show recomputedStatus db pid p bk = PayStatus.dpPaid by
      simp [recomputedStatus, hnd, hlt]]
    exact hfind PayStatus.dpPaid

/-- Witness for C3 (amended): with total 1,000,000, a verified 300,000
deposit showing `dp_paid`, verifying the 700,000 settlement reaches the
total and yields `paid`. -/
theorem c3_witness :
    paymentStatusAfterVerify (verifyPayment payDbSettle 9 2 Decision.verified none) 1 =
      some PayStatus.paid :=
  (c3_verify_recompute payDbSettle 9 2 none pendingSettlement
      { payBooking with paymentStatus := PayStatus.dpPaid }
      (by decide) (by decide) (by decide)).2.2.1 (by decide)
    (by show (1000000 : ℚ) ≤ 300000 + 0 + 700000; norm_num)

/-! ### C4 -/

/-- C4: requester cancellation of a pending booking does not succeed — the
route's `UPDATE` binds the two parameters `[reason, id]` against three
placeholders, so the statement itself fails and the booking is never set to
`cancelled`. -/
theorem c4_cancel_update_broken :
    cancelBooking exDb 7 1 "berubah rencana" = .error .SqlParamMismatch ∧
    (cancelUpdateParams "berubah rencana" 1).length = 2 ∧
    cancelUpdatePlaceholderCount = 3 :=
  ⟨rfl, rfl, rfl⟩

/-! ### submit-route success helper -/

/-- The submit route succeeds once the booking is found and the amount and
proof checks pass, returning the inserted payment and the updated store. -/
theorem submitPayment_ok
    (db : Db) (userId : Nat) (req : PayReq) (newPid : Nat) (bk : Booking)
    (hb : db.bookings.find? (fun b => b.id == req.bookingId && b.userId == userId) = some bk)
    (h1 : ¬(req.paymentType = PType.dp ∧ req.jumlah < bk.totalHarga * (3 / 10)))
    (h2 : ¬((req.paymentType = PType.full ∨ req.paymentType = PType.pelunasan) ∧
        req.jumlah < bk.totalHarga - verifiedSum db req.bookingId))
    (h3 : ¬(req.paymentMethod = PMethod.transfer ∧ req.buktiTransfer = none)) :
    submitPayment db userId req newPid =
      .ok (submitUpdatedDb db req newPid, insertedPayment req newPid) := by
  simp only [submitPayment, hb]
  rw [if_neg h1, if_neg h2, if_neg h3]

/-! ### C5 -/

/-- C5 counterexample: a cash `full` payment of the whole 1,000,000 price
is inserted already verified, yet the booking's derived payment status is
left `unpaid` — the claim requires `paid`. -/
theorem c5_counterexample :
    insertedStatusAfterSubmit
      (submitPayment payDb 7 ⟨1, 1000000, PType.full, PMethod.cash, none⟩ 1) =
      some VStatus.verified ∧
    paymentStatusAfterSubmit
      (submitPayment payDb 7 ⟨1, 1000000, PType.full, PMethod.cash, none⟩ 1) 1 =
      some PayStatus.unpaid ∧
    PayStatus.unpaid ≠ PayStatus.paid := by
  have h := submitPayment_ok payDb 7 ⟨1, 1000000, PType.full, PMethod.cash, none⟩ 1
    payBooking (by decide)
    (by rintro ⟨hdp, _⟩; exact absurd hdp (by decide))
    (by
      rintro ⟨_, hlt⟩
      revert hlt
      show ¬ (1000000 : ℚ) < 1000000 - 0
      norm_num)
    (by rintro ⟨hm, _⟩; exact absurd hm (by decide))
  rw [show (⟨1, 1000000, PType.full, PMethod.cash, none⟩ : PayReq) =
    { bookingId := 1, jumlah := 1000000, paymentType := PType.full,
      paymentMethod := PMethod.cash, buktiTransfer := none } from rfl] at h
  refine ⟨?_, ?_, by decide⟩
  · rw [h]; rfl
  · rw [h]; rfl

/-- C5 (amended): a cash payment is inserted already verified with the
booking's derived payment status updated in the same operation — `dp_paid`
for a deposit, `paid` for a settlement — but a cash `full` payment leaves
the booking rows untouched. -/
theorem c5_cash_autoverify
    (db : Db) (userId : Nat) (req : PayReq) (newPid : Nat) (bk : Booking)
    (hb : db.bookings.find? (fun b => b.id == req.bookingId && b.userId == userId) = some bk)
    (h1 : ¬(req.paymentType = PType.dp ∧ req.jumlah < bk.totalHarga * (3 / 10)))
    (h2 : ¬((req.paymentType = PType.full ∨ req.paymentType = PType.pelunasan) ∧
        req.jumlah < bk.totalHarga - verifiedSum db req.bookingId))
    (hcash : req.paymentMethod = PMethod.cash) :
    submitPayment db userId req newPid =
      .ok (submitUpdatedDb db req newPid, insertedPayment req newPid) ∧
    (insertedPayment req newPid).statusPayment = VStatus.verified ∧
    (req.paymentType = PType.dp →
      (submitUpdatedDb db req newPid).bookings = db.bookings.map (fun b =>
        if b.id == req.bookingId then { b with paymentStatus := PayStatus.dpPaid } else b)) ∧
    (req.paymentType = PType.pelunasan →
      (submitUpdatedDb db req newPid).bookings = db.bookings.map (fun b =>
        if b.id == req.bookingId then { b with paymentStatus := PayStatus.paid } else b)) ∧
    (req.paymentType = PType.full →
      (submitUpdatedDb db req newPid).bookings = db.bookings) := by
  have h3 : ¬(req.paymentMethod = PMethod.transfer ∧ req.buktiTransfer = none) := by
    rintro ⟨hm, _⟩
    rw [hcash] at hm
    exact absurd hm (by decide)
  refine ⟨submitPayment_ok db userId req newPid bk hb h1 h2 h3, ?_, ?_, ?_, ?_⟩
  · simp [insertedPayment, hcash]
  · intro hdp
    simp [submitUpdatedDb, hdp, hcash]
  · intro hpel
    have hne : req.paymentType ≠ PType.dp := by rw [hpel]; decide
    simp [submitUpdatedDb, hpel, hcash, hne]
  · intro hfull
    have hno : ¬((req.paymentType = PType.dp ∨ req.paymentType = PType.pelunasan) ∧
        req.paymentMethod = PMethod.cash) := by
      rw [hfull]
      rintro ⟨hor, _⟩
      rcases hor with h | h <;> exact absurd h (by decide)
    simp [submitUpdatedDb, if_neg hno]

/-- Witness for C5 (amended): a cash 1,000,000 settlement on the fixture
booking is auto-verified and flips the derived status to `paid`. -/
theorem c5_witness :
    submitPayment payDb 7 ⟨1, 1000000, PType.pelunasan, PMethod.cash, none⟩ 1 =
      .ok (submitUpdatedDb payDb ⟨1, 1000000, PType.pelunasan, PMethod.cash, none⟩ 1,
        insertedPayment ⟨1, 1000000, PType.pelunasan, PMethod.cash, none⟩ 1) ∧
    (insertedPayment (⟨1, 1000000, PType.pelunasan, PMethod.cash, none⟩ : PayReq) 1).statusPayment =
      VStatus.verified ∧
    (submitUpdatedDb payDb ⟨1, 1000000, PType.pelunasan, PMethod.cash, none⟩ 1).bookings =
      payDb.bookings.map (fun b =>
        if b.id == 1 then { b with paymentStatus := PayStatus.paid } else b) := by
  have h := c5_cash_autoverify payDb 7 ⟨1, 1000000, PType.pelunasan, PMethod.cash, none⟩ 1
    payBooking (by decide)
    (by rintro ⟨hdp, _⟩; exact absurd hdp (by decide))
    (by
      rintro ⟨_, hlt⟩
      revert hlt
      show ¬ (1000000 : ℚ) < 1000000 - 0
      norm_num)
    rfl
  exact ⟨h.1, h.2.1, h.2.2.2.1 rfl⟩

/-! ### C6 -/

/-- C6 counterexample: an e-wallet deposit submitted with no proof
reference is accepted (and inserted `pending`) — the claim requires the
submission to fail. -/
theorem c6_counterexample :
    isOkB (submitPayment payDb 7 ⟨1, 300000, PType.dp, PMethod.ewallet, none⟩ 1) = true ∧
    insertedStatusAfterSubmit
      (submitPayment payDb 7 ⟨1, 300000, PType.dp, PMethod.ewallet, none⟩ 1) =
      some VStatus.pending := by
  have h := submitPayment_ok payDb 7 ⟨1, 300000, PType.dp, PMethod.ewallet, none⟩ 1
    payBooking (by decide)
    (by
      rintro ⟨_, hlt⟩
      revert hlt
      show ¬ (300000 : ℚ) < 1000000 * (3 / 10)
      norm_num)
    (by rintro ⟨hor, _⟩; rcases hor with hx | hx <;> exact absurd hx (by decide))
    (by rintro ⟨hm, _⟩; exact absurd hm (by decide))
  rw [h]
  exact ⟨rfl, rfl⟩

/-- C6 (amended): a transfer payment must carry a proof reference — a
transfer with none fails — but an e-wallet payment has no proof
requirement; every non-cash payment is inserted with status `pending`. -/
theorem c6_proof_requirement
    (db : Db) (userId : Nat) (req : PayReq) (newPid : Nat) (bk : Booking)
    (hb : db.bookings.find? (fun b => b.id == req.bookingId && b.userId == userId) = some bk)
    (h1 : ¬(req.paymentType = PType.dp ∧ req.jumlah < bk.totalHarga * (3 / 10)))
    (h2 : ¬((req.paymentType = PType.full ∨ req.paymentType = PType.pelunasan) ∧
        req.jumlah < bk.totalHarga - verifiedSum db req.bookingId)) :
    (req.paymentMethod = PMethod.transfer ∧ req.buktiTransfer = none →
      submitPayment db userId req newPid = .error .ProofRequired) ∧
    (req.paymentMethod = PMethod.ewallet ∨
        req.paymentMethod = PMethod.transfer ∧ req.buktiTransfer ≠ none →
      submitPayment db userId req newPid =
        .ok (submitUpdatedDb db req newPid, insertedPayment req newPid) ∧
      (insertedPayment req newPid).statusPayment = VStatus.pending) := by
  constructor
  · intro hpf
    simp only [submitPayment, hb]
    rw [if_neg h1, if_neg h2, if_pos hpf]
  · intro hm
    have h3 : ¬(req.paymentMethod = PMethod.transfer ∧ req.buktiTransfer = none) := by
      rintro ⟨ht, hn⟩
      rcases hm with he | ⟨_, hn'⟩
      · rw [he] at ht; exact absurd ht (by decide)
      · exact hn' hn
    have hnc : req.paymentMethod ≠ PMethod.cash := by
      rcases hm with he | ⟨ht, _⟩
      · rw [he]; decide
      · rw [ht]; decide
    refine ⟨submitPayment_ok db userId req newPid bk hb h1 h2 h3, ?_⟩
    simp [insertedPayment, hnc]

/-- Witness for C6 (amended): on the fixture store a proofless transfer
deposit fails with `ProofRequired`, while the same deposit by e-wallet is
inserted `pending`. -/
theorem c6_witness :
    submitPayment payDb 7 ⟨1, 300000, PType.dp, PMethod.transfer, none⟩ 1 =
      .error .ProofRequired ∧
    (insertedPayment (⟨1, 300000, PType.dp, PMethod.ewallet, none⟩ : PayReq) 1).statusPayment =
      VStatus.pending := by
  have hdp : ¬((⟨1, 300000, PType.dp, PMethod.transfer, none⟩ : PayReq).paymentType = PType.dp ∧
      (⟨1, 300000, PType.dp, PMethod.transfer, none⟩ : PayReq).jumlah <
        payBooking.totalHarga * (3 / 10)) := by
    rintro ⟨_, hlt⟩
    revert hlt
    show ¬ (300000 : ℚ) < 1000000 * (3 / 10)
    norm_num
  refine ⟨(c6_proof_requirement payDb 7 ⟨1, 300000, PType.dp, PMethod.transfer, none⟩ 1
      payBooking (by decide) hdp
      (by rintro ⟨hor, _⟩; rcases hor with hx | hx <;> exact absurd hx (by decide))).1
      ⟨rfl, rfl⟩, ?_⟩
  exact ((c6_proof_requirement payDb 7 ⟨1, 300000, PType.dp, PMethod.ewallet, none⟩ 1
      payBooking (by decide)
      (by
        rintro ⟨_, hlt⟩
        revert hlt
        show ¬ (300000 : ℚ) < 1000000 * (3 / 10)
        norm_num)
      (by rintro ⟨hor, _⟩; rcases hor with hx | hx <;> exact absurd hx (by decide))).2
      (Or.inl rfl)).2

/-! ### C8 -/

/-- C8: on the requester's booking, a deposit below 30% of the total
price, or a full/settlement payment below the outstanding balance (total
minus currently verified payments), fails with `InsufficientAmount`;
amounts meeting the minimums (with the proof rule satisfied) are
accepted. -/
theorem c8_amount_minimums
    (db : Db) (userId : Nat) (req : PayReq) (newPid : Nat) (bk : Booking)
    (hb : db.bookings.find? (fun b => b.id == req.bookingId && b.userId == userId) = some bk) :
    (req.paymentType = PType.dp → req.jumlah < bk.totalHarga * (3 / 10) →
      submitPayment db userId req newPid = .error .InsufficientAmount) ∧
    ((req.paymentType = PType.full ∨ req.paymentType = PType.pelunasan) →
      req.jumlah < bk.totalHarga - verifiedSum db req.bookingId →
      submitPayment db userId req newPid = .error .InsufficientAmount) ∧
    ((req.paymentType = PType.dp → bk.totalHarga * (3 / 10) ≤ req.jumlah) →
      ((req.paymentType = PType.full ∨ req.paymentType = PType.pelunasan) →
        bk.totalHarga - verifiedSum db req.bookingId ≤ req.jumlah) →
      ¬(req.paymentMethod = PMethod.transfer ∧ req.buktiTransfer = none) →
      submitPayment db userId req newPid =
        .ok (submitUpdatedDb db req newPid, insertedPayment req newPid)) := by
  refine ⟨?_, ?_, ?_⟩
  · intro hdp hlt
    simp only [submitPayment, hb]
    rw [if_pos ⟨hdp, hlt⟩]
  · intro hor hlt
    have h1 : ¬(req.paymentType = PType.dp ∧ req.jumlah < bk.totalHarga * (3 / 10)) := by
      rintro ⟨hdp, _⟩
      rcases hor with h | h <;> (rw [hdp] at h; exact absurd h (by decide))
    simp only [submitPayment, hb]
    rw [if_neg h1, if_pos ⟨hor, hlt⟩]
  · intro hmin1 hmin2 h3
    exact submitPayment_ok db userId req newPid bk hb
      (fun ⟨hdp, hlt⟩ => absurd hlt (not_lt.mpr (hmin1 hdp)))
      (fun ⟨hor, hlt⟩ => absurd hlt (not_lt.mpr (hmin2 hor)))
      h3

/-- Witness for C8: a 200,000 deposit against a 1,000,000 booking is below
the 30% minimum and is rejected with `InsufficientAmount`. -/
theorem c8_witness :
    submitPayment payDb 7 ⟨1, 200000, PType.dp, PMethod.cash, none⟩ 1 =
      .error .InsufficientAmount :=
  (c8_amount_minimums payDb 7 ⟨1, 200000, PType.dp, PMethod.cash, none⟩ 1 payBooking
    (by decide)).1 rfl
    (by show (200000 : ℚ) < 1000000 * (3 / 10); norm_num)

/-! ### C9 -/

/-- C9: a verify call on a payment that is no longer `pending` (already
verified or rejected) fails with `AlreadyDecided`, leaving the store — and
hence the booking's derived payment status — exactly as it was. -/
theorem c9_already_decided
    (db : Db) (adminId pid : Nat) (decision : Decision) (notes : Option String)
    (p : Payment)
    (hp : db.payments.find? (fun q => q.id == pid) = some p)
    (hbex : (db.bookings.find? (fun b => b.id == p.bookingId)).isSome = true)
    (hnp : p.statusPayment ≠ VStatus.pending) :
    verifyPayment db adminId pid decision notes = .error .AlreadyDecided := by
  obtain ⟨bk, hbk⟩ := Option.isSome_iff_exists.mp hbex
  simp only [verifyPayment, hp, hbk]
  rw [if_pos hnp]

/-- Witness for C9: re-verifying the already verified deposit fails with
`AlreadyDecided`. -/
theorem c9_witness :
    verifyPayment payDbDecided 9 1 Decision.verified none = .error .AlreadyDecided :=
  c9_already_decided payDbDecided 9 1 Decision.verified none verifiedDp
    (by decide) (by decide) (by decide)

/-! ### C10 -/

/-- C10: the submit route never consults the booking's lifecycle status:
whatever `statusBooking` holds — including `cancelled` or `completed` — a
payment meeting the amount and proof rules is accepted, and a cash deposit
or settlement still rewrites the booking's derived payment status. -/
theorem c10_no_lifecycle_guard
    (db : Db) (userId : Nat) (req : PayReq) (newPid : Nat) (bk : Booking)
    (hb : db.bookings.find? (fun b => b.id == req.bookingId && b.userId == userId) = some bk)
    (h1 : ¬(req.paymentType = PType.dp ∧ req.jumlah < bk.totalHarga * (3 / 10)))
    (h2 : ¬((req.paymentType = PType.full ∨ req.paymentType = PType.pelunasan) ∧
        req.jumlah < bk.totalHarga - verifiedSum db req.bookingId))
    (h3 : ¬(req.paymentMethod = PMethod.transfer ∧ req.buktiTransfer = none)) :
    submitPayment db userId req newPid =
      .ok (submitUpdatedDb db req newPid, insertedPayment req newPid) ∧
    (req.paymentMethod = PMethod.cash → req.paymentType = PType.dp →
      (submitUpdatedDb db req newPid).bookings = db.bookings.map (fun b =>
        if b.id == req.bookingId then { b with paymentStatus := PayStatus.dpPaid } else b)) ∧
    (req.paymentMethod = PMethod.cash → req.paymentType = PType.pelunasan →
      (submitUpdatedDb db req newPid).bookings = db.bookings.map (fun b =>
        if b.id == req.bookingId then { b with paymentStatus := PayStatus.paid } else b)) := by
  refine ⟨submitPayment_ok db userId req newPid bk hb h1 h2 h3, ?_, ?_⟩
  · intro hcash hdp
    simp [submitUpdatedDb, hdp, hcash]
  · intro hcash hpel
    have hne : req.paymentType ≠ PType.dp := by rw [hpel]; decide
    simp [submitUpdatedDb, hpel, hcash, hne]

/-- Witness for C10: on a booking already `cancelled`, a cash 300,000
deposit is accepted and still flips the derived payment status to
`dp_paid`. -/
theorem c10_witness :
    (cancelledDb.bookings.map Booking.statusBooking = [BStatus.cancelled]) ∧
    submitPayment cancelledDb 7 ⟨1, 300000, PType.dp, PMethod.cash, none⟩ 1 =
      .ok (submitUpdatedDb cancelledDb ⟨1, 300000, PType.dp, PMethod.cash, none⟩ 1,
        insertedPayment ⟨1, 300000, PType.dp, PMethod.cash, none⟩ 1) ∧
    (submitUpdatedDb cancelledDb ⟨1, 300000, PType.dp, PMethod.cash, none⟩ 1).bookings =
      cancelledDb.bookings.map (fun b =>
        if b.id == 1 then { b with paymentStatus := PayStatus.dpPaid } else b) := by
  have h := c10_no_lifecycle_guard cancelledDb 7 ⟨1, 300000, PType.dp, PMethod.cash, none⟩ 1
    { payBooking with statusBooking := BStatus.cancelled } (by decide)
    (by
      rintro ⟨_, hlt⟩
      revert hlt
      show ¬ (300000 : ℚ) < 1000000 * (3 / 10)
      norm_num)
    (by rintro ⟨hor, _⟩; rcases hor with hx | hx <;> exact absurd hx (by decide))
    (by rintro ⟨hm, _⟩; exact absurd hm (by decide))
  exact ⟨by decide, h.1, h.2.1 rfl rfl⟩

end SopirPilihan
